import Mathlib

/-!
Verification of the GCS-notification forwarder (`src/main.py`).

The single handler `process_gcs_file(event, context=None)` extracts the four
fields `name`, `size`, `contentType`, `bucket` from the event mapping (with a
fallback to a nested mapping under key `data`), resolves a timestamp from the
optional context, serialises a five-key message to JSON and publishes it when
the process-wide publisher binding is formed.  We embed the handler as a pure
function over a model of Python values, recording the publish calls made and
the diagnostic log events emitted, so that nonevents ("no publish call") are
provable.
-/

/-- Model of the Python values that can appear in an event payload:
strings, integers, booleans, `None`, lists and dictionaries (association
lists keyed by strings, as produced by JSON decoding). -/
inductive PyVal where
  | str (s : String)
  | int (n : Int)
  | bool (b : Bool)
  | null
  | list (xs : List PyVal)
  | dict (d : List (String × PyVal))
deriving Repr

/-- Python dictionary lookup `d.get(k)`: the value at the first matching key,
or Python `None` (here `Option.none`) when the key is absent. -/
def pyGet (d : List (String × PyVal)) (k : String) : Option PyVal :=
  List.lookup k d

/-- Python truthiness of a value: empty strings, zero, `False`, `None` and
empty containers are falsy. -/
def pyTruthy : PyVal → Bool
  | .str s => !(s == "")
  | .int n => !(n == 0)
  | .bool b => b
  | .null => false
  | .list xs => !xs.isEmpty
  | .dict d => !d.isEmpty

/-- Truthiness of a `dict.get` result: a missing key yields Python `None`,
which is falsy; otherwise the truthiness of the value itself applies. -/
def optTruthy : Option PyVal → Bool
  | none => false
  | some v => pyTruthy v

/-- The guard `all([file_name, file_size, file_format, bucket_name])` used on
lines 83 and 95 of `src/main.py`: all four extracted values are truthy. -/
def requiredTruthy (fn fs ff bn : Option PyVal) : Bool :=
  optTruthy fn && optTruthy fs && optTruthy ff && optTruthy bn

/-- The trigger-supplied context object (`google.cloud.functions.Context`):
each attribute read with `getattr(context, attr, default)` is modelled as an
optional string. -/
structure EventContext where
  timestamp : Option String
  event_id : Option String
  event_type : Option String
  resource : Option String
deriving Repr, DecidableEq

/-- The sentinel string assigned on lines 57-60 of `src/main.py`. -/
def SENTINEL : String := "N/A (Context not provided or attribute missing)"

/-- Timestamp resolution of lines 57-70: the sentinel when the context is
absent, else `getattr(context, "timestamp", sentinel)`. -/
def resolveTimestamp (context : Option EventContext) : String :=
  match context with
  | none => SENTINEL
  | some c => c.timestamp.getD SENTINEL

/-- Hexadecimal digit (lowercase), as used by the JSON escapes of Python. -/
def hexDigit (n : Nat) : Char :=
  if n < 10 then Char.ofNat (48 + n) else Char.ofNat (87 + n)

/-- Four-digit lowercase hexadecimal rendering of a code unit. -/
def u16hex (n : Nat) : String :=
  String.mk [hexDigit (n / 4096 % 16), hexDigit (n / 256 % 16),
             hexDigit (n / 16 % 16), hexDigit (n % 16)]

/-- One `\uXXXX` escape. -/
def escU (n : Nat) : String := "\\u" ++ u16hex n

/-- Escaping of one character as in `json.dumps` with `ensure_ascii=True`:
short escapes for quote, backslash and common controls, `\uXXXX` for other
controls and for all non-ASCII characters (surrogate pairs beyond U+FFFF). -/
def jsonEscapeChar (c : Char) : String :=
  let n := c.toNat
  if c = '"' then "\\\""
  else if c = '\\' then "\\\\"
  else if n = 8 then "\\b"
  else if n = 12 then "\\f"
  else if c = '\n' then "\\n"
  else if c = '\r' then "\\r"
  else if c = '\t' then "\\t"
  else if n < 32 then escU n
  else if n < 128 then String.singleton c
  else if n < 65536 then escU n
  else escU (55296 + (n - 65536) / 1024) ++ escU (56320 + (n - 65536) % 1024)

/-- Escape every character of a string. -/
def jsonEscape (s : String) : String :=
  String.join (s.toList.map jsonEscapeChar)

mutual

/-- The `json.dumps` serialisation with default separators: the JSON text of
a value. -/
def pyJsonDumps : PyVal → String
  | .str s => "\"" ++ jsonEscape s ++ "\""
  | .int n => toString n
  | .bool true => "true"
  | .bool false => "false"
  | .null => "null"
  | .list xs => "[" ++ dumpsList xs ++ "]"
  | .dict d => "\x7b" ++ dumpsDict d ++ "\x7d"

/-- Comma-separated JSON texts of the elements of a list. -/
def dumpsList : List PyVal → String
  | [] => ""
  | [x] => pyJsonDumps x
  | x :: xs => pyJsonDumps x ++ ", " ++ dumpsList xs

/-- Comma-separated `"key": value` pairs of a dictionary. -/
def dumpsDict : List (String × PyVal) → String
  | [] => ""
  | [(k, v)] => "\"" ++ jsonEscape k ++ "\": " ++ pyJsonDumps v
  | (k, v) :: xs =>
      "\"" ++ jsonEscape k ++ "\": " ++ pyJsonDumps v ++ ", " ++ dumpsDict xs

end

/-- Diagnostic log events, one per `print` decision point of the handler. -/
inductive LogEvent where
  | invoked
  | rawEventPayload (event : List (String × PyVal))
  | rawContextObject
  | contextAttrs
  | contextDetails
  | contextIsNone
  | directNotFound
  | foundDataField
  | noDataField
  | missingAttributes (event : List (String × PyVal))
  | publishSuccess (messageId : String)
  | fileInfo
  | publisherUnformed
  | unhandledError (e : String)
deriving Repr

/-- Terminal outcome of one invocation. -/
inductive Outcome where
  | published (messageId : String) (message_data : List (String × PyVal))
  | skippedMissingFields
  | skippedNoPublisher
  | caughtError (e : String)
deriving Repr

/-- Result of one invocation: the outcome, the payloads handed to the
publish capability (in order), and the log events emitted. -/
structure RunResult where
  outcome : Outcome
  publishCalls : List String
  logs : List LogEvent
deriving Repr

/-- Field extraction of lines 77-93 of `src/main.py`, with its log events:
direct top-level lookups of `name`, `size`, `contentType`, `bucket`; when not
all four are truthy and `event.get("data")` is a truthy (hence non-empty)
dictionary, all four are re-read from it, otherwise the direct values stand. -/
def extractFieldsL (event : List (String × PyVal)) :
    (Option PyVal × Option PyVal × Option PyVal × Option PyVal) × List LogEvent :=
  let file_name := pyGet event "name"
  let file_size := pyGet event "size"
  let file_format := pyGet event "contentType"
  let bucket_name := pyGet event "bucket"
  if requiredTruthy file_name file_size file_format bucket_name then
    ((file_name, file_size, file_format, bucket_name), [])
  else
    match pyGet event "data" with
    | some (PyVal.dict d) =>
        if d.isEmpty then
          ((file_name, file_size, file_format, bucket_name),
           [LogEvent.directNotFound, LogEvent.noDataField])
        else
          ((pyGet d "name", pyGet d "size", pyGet d "contentType", pyGet d "bucket"),
           [LogEvent.directNotFound, LogEvent.foundDataField])
    | _ =>
        ((file_name, file_size, file_format, bucket_name),
         [LogEvent.directNotFound, LogEvent.noDataField])

/-- The four extracted values alone. -/
def extractFields (event : List (String × PyVal)) :
    Option PyVal × Option PyVal × Option PyVal × Option PyVal :=
  (extractFieldsL event).1

/-- Message construction of lines 100-106: the five-key outbound mapping.
After validation every value is `some`, so `getD PyVal.null` only unwraps. -/
def buildMessageData (fn fs ff bn : Option PyVal) (timestamp : String) :
    List (String × PyVal) :=
  [("fileName", fn.getD PyVal.null),
   ("fileSize", fs.getD PyVal.null),
   ("fileFormat", ff.getD PyVal.null),
   ("bucketName", bn.getD PyVal.null),
   ("timestamp", PyVal.str timestamp)]

/-- The publisher binding: `Option.none` when `PUBLISHER` or `TOPIC_PATH` is
null (missing configuration, lines 26-35 and the guard on line 110); otherwise
the publish capability, taking the message text and either returning a message
id or raising (modelled by `Except.error`). -/
def PublisherBinding : Type := Option (String → Except String String)

/-- The handler `process_gcs_file` of `src/main.py` lines 38-124, with its
publish-call and log traces.  The `try`/`except` of lines 55-124 catches any
exception (here: a failing publish call) and swallows it after logging, so the
function is total and every run ends in one of the four outcomes. -/
def process_gcs_fileT (publisher : PublisherBinding)
    (event : List (String × PyVal)) (context : Option EventContext) : RunResult :=
  let timestamp := resolveTimestamp context
  let ctxLogs : List LogEvent :=
    match context with
    | some _ => [LogEvent.contextAttrs, LogEvent.contextDetails]
    | none => [LogEvent.contextIsNone]
  match extractFieldsL event with
  | ((file_name, file_size, file_format, bucket_name), exLogs) =>
    let baseLogs := LogEvent.invoked :: LogEvent.rawEventPayload event ::
      LogEvent.rawContextObject :: ctxLogs ++ exLogs
    if requiredTruthy file_name file_size file_format bucket_name then
      let message_data := buildMessageData file_name file_size file_format bucket_name timestamp
      let message_json := pyJsonDumps (PyVal.dict message_data)
      match publisher with
      | some pub =>
          match pub message_json with
          | Except.ok message_id =>
              ⟨Outcome.published message_id message_data, [message_json],
               baseLogs ++ [LogEvent.publishSuccess message_id, LogEvent.fileInfo]⟩
          | Except.error e =>
              ⟨Outcome.caughtError e, [message_json],
               baseLogs ++ [LogEvent.unhandledError e]⟩
      | none =>
          ⟨Outcome.skippedNoPublisher, [],
           baseLogs ++ [LogEvent.publisherUnformed]⟩
    else
      ⟨Outcome.skippedMissingFields, [],
       baseLogs ++ [LogEvent.missingAttributes event]⟩

/-- The outcome of the handler alone. -/
def process_gcs_file (publisher : PublisherBinding)
    (event : List (String × PyVal)) (context : Option EventContext) : Outcome :=
  (process_gcs_fileT publisher event context).outcome

/-- A formed publisher binding that acknowledges every message. -/
def pubOk : PublisherBinding := some (fun _ => Except.ok "id123")

/-- A formed publisher binding whose publish call always raises. -/
def pubFail : PublisherBinding := some (fun _ => Except.error "boom")

/-- The flat example event of the specification. -/
def flatEvent : List (String × PyVal) :=
  [("name", PyVal.str "a.csv"), ("size", PyVal.int 1024),
   ("contentType", PyVal.str "text/csv"), ("bucket", PyVal.str "b1")]

/-- The example context of the specification. -/
def sampleContext : EventContext :=
  ⟨some "2024-01-01T00:00:00Z", none, none, none⟩

/-- The nested four fields of the second specification example. -/
def nestedFields : List (String × PyVal) :=
  [("name", PyVal.str "x.png"), ("size", PyVal.int 55),
   ("contentType", PyVal.str "image/png"), ("bucket", PyVal.str "b2")]

/-- The nested example event of the specification. -/
def nestedEvent : List (String × PyVal) := [("data", PyVal.dict nestedFields)]

/-- A complete truthy nested field set, distinct from the top level. -/
def shadowFields : List (String × PyVal) :=
  [("name", PyVal.str "x"), ("size", PyVal.int 2),
   ("contentType", PyVal.str "c"), ("bucket", PyVal.str "d")]

/-- An event with all four keys present at top level, an empty-string `name`
(falsy), and a complete truthy nested mapping under `data`. -/
def shadowEvent : List (String × PyVal) :=
  [("name", PyVal.str ""), ("size", PyVal.int 1), ("contentType", PyVal.str "t"),
   ("bucket", PyVal.str "b"), ("data", PyVal.dict shadowFields)]

/-- An event whose `data` key holds an empty dictionary. -/
def emptyDataEvent : List (String × PyVal) :=
  [("name", PyVal.str "a"), ("data", PyVal.dict [])]

/-- An event carrying only one of the four required fields. -/
def nameOnlyEvent : List (String × PyVal) := [("name", PyVal.str "only.txt")]

/-- The message published for `shadowFields` without a context. -/
def shadowMessage : List (String × PyVal) :=
  [("fileName", PyVal.str "x"), ("fileSize", PyVal.int 2),
   ("fileFormat", PyVal.str "c"), ("bucketName", PyVal.str "d"),
   ("timestamp", PyVal.str SENTINEL)]

/-- An event whose top-level `size` is the falsy integer zero, with a
complete truthy nested mapping under `data`. -/
def zeroSizeEvent : List (String × PyVal) :=
  [("name", PyVal.str "z.txt"), ("size", PyVal.int 0),
   ("contentType", PyVal.str "text/plain"), ("bucket", PyVal.str "bz"),
   ("data", PyVal.dict shadowFields)]

/-- A truthy lookup result is `some` of its payload. -/
theorem some_getD_of_truthy (o : Option PyVal) (h : optTruthy o = true) :
    some (o.getD PyVal.null) = o := by
  cases o with
  | none => simp [optTruthy] at h
  | some v => rfl

/-- Decomposition of the four-way truthiness guard. -/
theorem requiredTruthy_split (fn fs ff bn : Option PyVal)
    (h : requiredTruthy fn fs ff bn = true) :
    optTruthy fn = true ∧ optTruthy fs = true
      ∧ optTruthy ff = true ∧ optTruthy bn = true := by
  simp only [requiredTruthy, Bool.and_eq_true] at h
  exact ⟨h.1.1.1, h.1.1.2, h.1.2, h.2⟩

/-- A dictionary with a truthy lookup is non-empty. -/
theorem ne_nil_of_truthy_lookup (d : List (String × PyVal)) (k : String)
    (h : optTruthy (pyGet d k) = true) : d ≠ [] := by
  rintro rfl
  simp [pyGet, optTruthy] at h

/-- When all four top-level values are truthy, extraction keeps them. -/
theorem extractFieldsL_top (event : List (String × PyVal))
    (ht : requiredTruthy (pyGet event "name") (pyGet event "size")
            (pyGet event "contentType") (pyGet event "bucket") = true) :
    extractFieldsL event =
      ((pyGet event "name", pyGet event "size", pyGet event "contentType",
        pyGet event "bucket"), []) := by
  simp [extractFieldsL, ht]

/-- When the top-level guard fails and `data` holds a non-empty dictionary,
extraction re-reads all four keys from it. -/
theorem extractFieldsL_nested (event d : List (String × PyVal))
    (hmiss : requiredTruthy (pyGet event "name") (pyGet event "size")
               (pyGet event "contentType") (pyGet event "bucket") = false)
    (hd : pyGet event "data" = some (PyVal.dict d)) (hne : d ≠ []) :
    extractFieldsL event =
      ((pyGet d "name", pyGet d "size", pyGet d "contentType", pyGet d "bucket"),
       [LogEvent.directNotFound, LogEvent.foundDataField]) := by
  have hie : d.isEmpty = false := by
    cases d with
    | nil => exact absurd rfl hne
    | cons p l => rfl
  simp [extractFieldsL, hmiss, hd, hie]

/-- Every run that fails the final four-field guard skips: outcome
`skippedMissingFields`, no publish call, and the payload is logged. -/
theorem missing_skip (pub : PublisherBinding) (event : List (String × PyVal))
    (ctx : Option EventContext) (fn fs ff bn : Option PyVal)
    (hE : extractFields event = (fn, fs, ff, bn))
    (h : requiredTruthy fn fs ff bn = false) :
    (process_gcs_fileT pub event ctx).outcome = Outcome.skippedMissingFields
      ∧ (process_gcs_fileT pub event ctx).publishCalls = []
      ∧ LogEvent.missingAttributes event ∈ (process_gcs_fileT pub event ctx).logs := by
  rcases hEL : extractFieldsL event with ⟨⟨fn', fs', ff', bn'⟩, lgs⟩
  have hq : fn' = fn ∧ fs' = fs ∧ ff' = ff ∧ bn' = bn := by
    have := hE
    simp only [extractFields, hEL] at this
    exact ⟨congrArg (fun q => q.1) this, congrArg (fun q => q.2.1) this,
           congrArg (fun q => q.2.2.1) this, congrArg (fun q => q.2.2.2) this⟩
  rcases hq with ⟨rfl, rfl, rfl, rfl⟩
  simp [process_gcs_fileT, hEL, h]

/-- Shape of every published run: the final guard passed and the message is
`buildMessageData` of the extracted fields and the resolved timestamp; the
only publish call carries exactly its JSON text. -/
theorem published_shape (pub : PublisherBinding) (ev : List (String × PyVal))
    (ctx : Option EventContext) (mid : String) (md : List (String × PyVal))
    (h : process_gcs_file pub ev ctx = Outcome.published mid md) :
    ∃ fn fs ff bn, extractFields ev = (fn, fs, ff, bn)
      ∧ requiredTruthy fn fs ff bn = true
      ∧ md = buildMessageData fn fs ff bn (resolveTimestamp ctx)
      ∧ (process_gcs_fileT pub ev ctx).publishCalls = [pyJsonDumps (PyVal.dict md)] := by
  rcases hE : extractFieldsL ev with ⟨⟨fn, fs, ff, bn⟩, lgs⟩
  refine ⟨fn, fs, ff, bn, by simp [extractFields, hE], ?_, ?_, ?_⟩ <;>
  · simp only [process_gcs_file, process_gcs_fileT, hE] at h ⊢
    split at h
    · rcases pub with _ | p
      · simp at h
      · simp only at h ⊢
        split at h <;> simp_all
    · simp at h

/-- Every published run of an event with an incomplete top level and a
complete truthy set under `data` carries the nested values. -/
theorem published_nested_values (ev d : List (String × PyVal))
    (pub : PublisherBinding) (ctx : Option EventContext)
    (mid : String) (md : List (String × PyVal))
    (hmiss : requiredTruthy (pyGet ev "name") (pyGet ev "size")
               (pyGet ev "contentType") (pyGet ev "bucket") = false)
    (hd : pyGet ev "data" = some (PyVal.dict d))
    (hok : requiredTruthy (pyGet d "name") (pyGet d "size") (pyGet d "contentType")
             (pyGet d "bucket") = true)
    (h : process_gcs_file pub ev ctx = Outcome.published mid md) :
    List.lookup "fileName" md = pyGet d "name"
    ∧ List.lookup "fileSize" md = pyGet d "size"
    ∧ List.lookup "fileFormat" md = pyGet d "contentType"
    ∧ List.lookup "bucketName" md = pyGet d "bucket"
    ∧ List.lookup "timestamp" md = some (PyVal.str (resolveTimestamp ctx)) := by
  obtain ⟨t1, t2, t3, t4⟩ := requiredTruthy_split _ _ _ _ hok
  have hne : d ≠ [] := ne_nil_of_truthy_lookup d "name" t1
  obtain ⟨fn, fs, ff, bn, hE, htr, hmd, -⟩ := published_shape pub ev ctx mid md h
  have hNested : extractFields ev =
      (pyGet d "name", pyGet d "size", pyGet d "contentType", pyGet d "bucket") := by
    simp [extractFields, extractFieldsL_nested ev d hmiss hd hne]
  rw [hNested] at hE
  have h1 : pyGet d "name" = fn := congrArg (fun q => q.1) hE
  have h2 : pyGet d "size" = fs := congrArg (fun q => q.2.1) hE
  have h3 : pyGet d "contentType" = ff := congrArg (fun q => q.2.2.1) hE
  have h4 : pyGet d "bucket" = bn := congrArg (fun q => q.2.2.2) hE
  subst hmd h1 h2 h3 h4
  exact ⟨some_getD_of_truthy _ t1, some_getD_of_truthy _ t2,
         some_getD_of_truthy _ t3, some_getD_of_truthy _ t4, rfl⟩

/-- C1 as frozen is refuted: `shadowEvent` has all four required keys present
at top level, yet the published message carries the nested values, so its
`fileName` differs from the top-level `name`. -/
theorem c1_counterexample :
    (pyGet shadowEvent "name").isSome = true
    ∧ (pyGet shadowEvent "size").isSome = true
    ∧ (pyGet shadowEvent "contentType").isSome = true
    ∧ (pyGet shadowEvent "bucket").isSome = true
    ∧ process_gcs_file pubOk shadowEvent none =
        Outcome.published "id123"
          [("fileName", PyVal.str "x"), ("fileSize", PyVal.int 2),
           ("fileFormat", PyVal.str "c"), ("bucketName", PyVal.str "d"),
           ("timestamp", PyVal.str SENTINEL)]
    ∧ List.lookup "fileName"
        [("fileName", PyVal.str "x"), ("fileSize", PyVal.int 2),
         ("fileFormat", PyVal.str "c"), ("bucketName", PyVal.str "d"),
         ("timestamp", PyVal.str SENTINEL)] ≠ pyGet shadowEvent "name" := by
  refine ⟨rfl, rfl, rfl, rfl, rfl, ?_⟩
  intro h
  rw [show pyGet shadowEvent "name" = some (PyVal.str "") from rfl] at h
  injection h with h1
  injection h1 with h2
  exact absurd h2 (by decide)

/-- C1 amended: when the four top-level values are present and truthy, any
published message carries exactly those values; the equalities are between
`Option PyVal` lookups, so the `fileSize` value keeps its input type
(an integer stays an integer, a string stays a string). -/
theorem c1_top_fields_forwarded (pub : PublisherBinding)
    (ev : List (String × PyVal)) (ctx : Option EventContext)
    (mid : String) (md : List (String × PyVal))
    (ht : requiredTruthy (pyGet ev "name") (pyGet ev "size")
            (pyGet ev "contentType") (pyGet ev "bucket") = true)
    (h : process_gcs_file pub ev ctx = Outcome.published mid md) :
    List.lookup "fileName" md = pyGet ev "name"
    ∧ List.lookup "fileSize" md = pyGet ev "size"
    ∧ List.lookup "fileFormat" md = pyGet ev "contentType"
    ∧ List.lookup "bucketName" md = pyGet ev "bucket" := by
  obtain ⟨fn, fs, ff, bn, hE, htr, hmd, -⟩ := published_shape pub ev ctx mid md h
  have hTop : extractFields ev =
      (pyGet ev "name", pyGet ev "size", pyGet ev "contentType", pyGet ev "bucket") := by
    simp [extractFields, extractFieldsL_top ev ht]
  rw [hTop] at hE
  have h1 : pyGet ev "name" = fn := congrArg (fun q => q.1) hE
  have h2 : pyGet ev "size" = fs := congrArg (fun q => q.2.1) hE
  have h3 : pyGet ev "contentType" = ff := congrArg (fun q => q.2.2.1) hE
  have h4 : pyGet ev "bucket" = bn := congrArg (fun q => q.2.2.2) hE
  obtain ⟨t1, t2, t3, t4⟩ := requiredTruthy_split fn fs ff bn htr
  subst hmd
  exact ⟨h1 ▸ some_getD_of_truthy fn t1, h2 ▸ some_getD_of_truthy fs t2,
         h3 ▸ some_getD_of_truthy ff t3, h4 ▸ some_getD_of_truthy bn t4⟩

/-- Witness for the amended C1 on the flat example event of the spec. -/
theorem c1_witness :
    List.lookup "fileName"
        [("fileName", PyVal.str "a.csv"), ("fileSize", PyVal.int 1024),
         ("fileFormat", PyVal.str "text/csv"), ("bucketName", PyVal.str "b1"),
         ("timestamp", PyVal.str "2024-01-01T00:00:00Z")] = pyGet flatEvent "name"
    ∧ List.lookup "fileSize"
        [("fileName", PyVal.str "a.csv"), ("fileSize", PyVal.int 1024),
         ("fileFormat", PyVal.str "text/csv"), ("bucketName", PyVal.str "b1"),
         ("timestamp", PyVal.str "2024-01-01T00:00:00Z")] = pyGet flatEvent "size"
    ∧ List.lookup "fileFormat"
        [("fileName", PyVal.str "a.csv"), ("fileSize", PyVal.int 1024),
         ("fileFormat", PyVal.str "text/csv"), ("bucketName", PyVal.str "b1"),
         ("timestamp", PyVal.str "2024-01-01T00:00:00Z")] = pyGet flatEvent "contentType"
    ∧ List.lookup "bucketName"
        [("fileName", PyVal.str "a.csv"), ("fileSize", PyVal.int 1024),
         ("fileFormat", PyVal.str "text/csv"), ("bucketName", PyVal.str "b1"),
         ("timestamp", PyVal.str "2024-01-01T00:00:00Z")] = pyGet flatEvent "bucket" :=
  c1_top_fields_forwarded pubOk flatEvent (some sampleContext) "id123" _ rfl rfl

/-- C2 as frozen is refuted: `emptyDataEvent` lacks required fields at top
level and has a mapping at key `data`, yet the empty mapping is falsy, so the
partial top-level result is kept rather than overwritten by nested lookups. -/
theorem c2_counterexample :
    requiredTruthy (pyGet emptyDataEvent "name") (pyGet emptyDataEvent "size")
      (pyGet emptyDataEvent "contentType") (pyGet emptyDataEvent "bucket") = false
    ∧ pyGet emptyDataEvent "data" = some (PyVal.dict [])
    ∧ extractFields emptyDataEvent = (some (PyVal.str "a"), none, none, none)
    ∧ extractFields emptyDataEvent ≠
        (pyGet ([] : List (String × PyVal)) "name", pyGet [] "size",
         pyGet [] "contentType", pyGet [] "bucket") := by
  refine ⟨rfl, rfl, rfl, ?_⟩
  intro h
  have h1 : (some (PyVal.str "a") : Option PyVal) = none :=
    congrArg (fun q => q.1) h
  exact Option.noConfusion h1

/-- C2 amended: with a truthy (non-empty) mapping at `data`, all four fields
are re-read from it, overwriting even partial top-level results; consequently
a field set that is only jointly complete across the two locations is aborted
without publishing. -/
theorem c2_nested_overwrite (ev d : List (String × PyVal))
    (hmiss : requiredTruthy (pyGet ev "name") (pyGet ev "size")
               (pyGet ev "contentType") (pyGet ev "bucket") = false)
    (hd : pyGet ev "data" = some (PyVal.dict d)) (hne : d ≠ []) :
    extractFields ev = (pyGet d "name", pyGet d "size", pyGet d "contentType", pyGet d "bucket")
    ∧ (requiredTruthy (pyGet d "name") (pyGet d "size") (pyGet d "contentType")
          (pyGet d "bucket") = false →
        ∀ (pub : PublisherBinding) (ctx : Option EventContext),
          process_gcs_file pub ev ctx = Outcome.skippedMissingFields) := by
  have hE : extractFields ev =
      (pyGet d "name", pyGet d "size", pyGet d "contentType", pyGet d "bucket") := by
    simp [extractFields, extractFieldsL_nested ev d hmiss hd hne]
  refine ⟨hE, fun hmiss2 pub ctx => ?_⟩
  exact (missing_skip pub ev ctx _ _ _ _ hE hmiss2).1

/-- Witness for the amended C2: the top level has only a name, nested `data`
has the other three fields, so the jointly complete event is still skipped. -/
theorem c2_witness :
    extractFields
        [("name", PyVal.str "a"),
         ("data", PyVal.dict [("size", PyVal.int 7), ("contentType", PyVal.str "t"),
                              ("bucket", PyVal.str "b")])] =
      (none, some (PyVal.int 7), some (PyVal.str "t"), some (PyVal.str "b"))
    ∧ process_gcs_file pubOk
        [("name", PyVal.str "a"),
         ("data", PyVal.dict [("size", PyVal.int 7), ("contentType", PyVal.str "t"),
                              ("bucket", PyVal.str "b")])] none =
      Outcome.skippedMissingFields := by
  have h := c2_nested_overwrite
    [("name", PyVal.str "a"),
     ("data", PyVal.dict [("size", PyVal.int 7), ("contentType", PyVal.str "t"),
                          ("bucket", PyVal.str "b")])]
    [("size", PyVal.int 7), ("contentType", PyVal.str "t"), ("bucket", PyVal.str "b")]
    rfl rfl (by simp)
  exact ⟨h.1, h.2 rfl pubOk none⟩

/-- C3: when the top level is incomplete and `data` holds a complete truthy
set of the four fields, any published message is built from the nested values
and carries the resolved timestamp (sentinel when no context is given). -/
theorem c3_nested_extraction (ev d : List (String × PyVal))
    (pub : PublisherBinding) (ctx : Option EventContext)
    (mid : String) (md : List (String × PyVal))
    (hmiss : requiredTruthy (pyGet ev "name") (pyGet ev "size")
               (pyGet ev "contentType") (pyGet ev "bucket") = false)
    (hd : pyGet ev "data" = some (PyVal.dict d))
    (hok : requiredTruthy (pyGet d "name") (pyGet d "size") (pyGet d "contentType")
             (pyGet d "bucket") = true)
    (h : process_gcs_file pub ev ctx = Outcome.published mid md) :
    List.lookup "fileName" md = pyGet d "name"
    ∧ List.lookup "fileSize" md = pyGet d "size"
    ∧ List.lookup "fileFormat" md = pyGet d "contentType"
    ∧ List.lookup "bucketName" md = pyGet d "bucket"
    ∧ List.lookup "timestamp" md = some (PyVal.str (resolveTimestamp ctx)) :=
  published_nested_values ev d pub ctx mid md hmiss hd hok h

/-- Witness for C3 on the nested example event of the spec (no context, so
the resolved timestamp is the sentinel). -/
theorem c3_witness :
    List.lookup "fileName"
        [("fileName", PyVal.str "x.png"), ("fileSize", PyVal.int 55),
         ("fileFormat", PyVal.str "image/png"), ("bucketName", PyVal.str "b2"),
         ("timestamp", PyVal.str SENTINEL)] = pyGet nestedFields "name"
    ∧ List.lookup "fileSize"
        [("fileName", PyVal.str "x.png"), ("fileSize", PyVal.int 55),
         ("fileFormat", PyVal.str "image/png"), ("bucketName", PyVal.str "b2"),
         ("timestamp", PyVal.str SENTINEL)] = pyGet nestedFields "size"
    ∧ List.lookup "fileFormat"
        [("fileName", PyVal.str "x.png"), ("fileSize", PyVal.int 55),
         ("fileFormat", PyVal.str "image/png"), ("bucketName", PyVal.str "b2"),
         ("timestamp", PyVal.str SENTINEL)] = pyGet nestedFields "contentType"
    ∧ List.lookup "bucketName"
        [("fileName", PyVal.str "x.png"), ("fileSize", PyVal.int 55),
         ("fileFormat", PyVal.str "image/png"), ("bucketName", PyVal.str "b2"),
         ("timestamp", PyVal.str SENTINEL)] = pyGet nestedFields "bucket"
    ∧ List.lookup "timestamp"
        [("fileName", PyVal.str "x.png"), ("fileSize", PyVal.int 55),
         ("fileFormat", PyVal.str "image/png"), ("bucketName", PyVal.str "b2"),
         ("timestamp", PyVal.str SENTINEL)] = some (PyVal.str (resolveTimestamp none)) :=
  c3_nested_extraction nestedEvent nestedFields pubOk none "id123" _ rfl rfl rfl rfl

/-- C4: when the four-field guard still fails after both extraction attempts,
every run skips: no publish call occurs, the full payload is logged for
diagnosis, and the invocation terminates normally in `skippedMissingFields`. -/
theorem c4_missing_fields_skip (ev : List (String × PyVal))
    (fn fs ff bn : Option PyVal)
    (hE : extractFields ev = (fn, fs, ff, bn))
    (h : requiredTruthy fn fs ff bn = false) :
    ∀ (pub : PublisherBinding) (ctx : Option EventContext),
      process_gcs_file pub ev ctx = Outcome.skippedMissingFields
      ∧ (process_gcs_fileT pub ev ctx).publishCalls = []
      ∧ LogEvent.missingAttributes ev ∈ (process_gcs_fileT pub ev ctx).logs :=
  fun pub ctx => missing_skip pub ev ctx fn fs ff bn hE h

/-- Witness for C4: an event with only a name is skipped even under a
publisher whose publish call would raise. -/
theorem c4_witness :
    process_gcs_file pubFail nameOnlyEvent none = Outcome.skippedMissingFields
    ∧ (process_gcs_fileT pubFail nameOnlyEvent none).publishCalls = []
    ∧ LogEvent.missingAttributes nameOnlyEvent ∈
        (process_gcs_fileT pubFail nameOnlyEvent none).logs :=
  c4_missing_fields_skip nameOnlyEvent _ _ _ _ rfl rfl pubFail none

/-- C5: timestamp resolution — the sentinel without a context, the attribute
value verbatim when present, the sentinel when the attribute is absent; and
every published message carries the resolved timestamp. -/
theorem c5_timestamp_resolution :
    resolveTimestamp none = SENTINEL
    ∧ (∀ (c : EventContext) (t : String), c.timestamp = some t →
        resolveTimestamp (some c) = t)
    ∧ (∀ c : EventContext, c.timestamp = none → resolveTimestamp (some c) = SENTINEL)
    ∧ ∀ (pub : PublisherBinding) (ev : List (String × PyVal))
        (ctx : Option EventContext) (mid : String) (md : List (String × PyVal)),
        process_gcs_file pub ev ctx = Outcome.published mid md →
        List.lookup "timestamp" md = some (PyVal.str (resolveTimestamp ctx)) := by
  refine ⟨rfl, ?_, ?_, ?_⟩
  · intro c t h; simp [resolveTimestamp, h]
  · intro c h; simp [resolveTimestamp, h]
  · intro pub ev ctx mid md h
    obtain ⟨fn, fs, ff, bn, -, -, hmd, -⟩ := published_shape pub ev ctx mid md h
    subst hmd; rfl

/-- Witness for C5 at concrete contexts and a concrete published run. -/
theorem c5_witness :
    resolveTimestamp (some sampleContext) = "2024-01-01T00:00:00Z"
    ∧ resolveTimestamp (some ⟨none, none, none, none⟩) = SENTINEL
    ∧ List.lookup "timestamp"
        [("fileName", PyVal.str "a.csv"), ("fileSize", PyVal.int 1024),
         ("fileFormat", PyVal.str "text/csv"), ("bucketName", PyVal.str "b1"),
         ("timestamp", PyVal.str "2024-01-01T00:00:00Z")] =
        some (PyVal.str (resolveTimestamp (some sampleContext))) :=
  ⟨c5_timestamp_resolution.2.1 sampleContext _ rfl,
   c5_timestamp_resolution.2.2.1 ⟨none, none, none, none⟩ rfl,
   c5_timestamp_resolution.2.2.2 pubOk flatEvent (some sampleContext) "id123" _ rfl⟩

/-- C6: with an unformed publisher binding no run publishes — every event
ends in one of the two skip outcomes, no publish call is made, and the skip
is logged (either the unformed-publisher line or the missing-fields line). -/
theorem c6_unformed_publisher_skip (ev : List (String × PyVal))
    (ctx : Option EventContext) :
    (process_gcs_file none ev ctx = Outcome.skippedMissingFields
      ∨ process_gcs_file none ev ctx = Outcome.skippedNoPublisher)
    ∧ (process_gcs_fileT none ev ctx).publishCalls = []
    ∧ (LogEvent.publisherUnformed ∈ (process_gcs_fileT none ev ctx).logs
        ∨ LogEvent.missingAttributes ev ∈ (process_gcs_fileT none ev ctx).logs) := by
  rcases hE : extractFieldsL ev with ⟨⟨fn, fs, ff, bn⟩, lgs⟩
  simp only [process_gcs_file, process_gcs_fileT, hE]
  split <;> simp

/-- C7: every published message has exactly the five outbound keys in order
(no extras, none missing), and the single publish call carries exactly the
JSON serialisation of that mapping, so decoding the bytes recovers it. -/
theorem c7_roundtrip_keys (pub : PublisherBinding) (ev : List (String × PyVal))
    (ctx : Option EventContext) (mid : String) (md : List (String × PyVal))
    (h : process_gcs_file pub ev ctx = Outcome.published mid md) :
    md.map Prod.fst = ["fileName", "fileSize", "fileFormat", "bucketName", "timestamp"]
    ∧ (process_gcs_fileT pub ev ctx).publishCalls = [pyJsonDumps (PyVal.dict md)] := by
  obtain ⟨fn, fs, ff, bn, -, -, hmd, hcalls⟩ := published_shape pub ev ctx mid md h
  subst hmd
  exact ⟨rfl, hcalls⟩

/-- Witness for C7 on the nested example run. -/
theorem c7_witness :
    List.map Prod.fst
        [("fileName", PyVal.str "x.png"), ("fileSize", PyVal.int 55),
         ("fileFormat", PyVal.str "image/png"), ("bucketName", PyVal.str "b2"),
         ("timestamp", PyVal.str SENTINEL)] =
      ["fileName", "fileSize", "fileFormat", "bucketName", "timestamp"]
    ∧ (process_gcs_fileT pubOk nestedEvent none).publishCalls =
        [pyJsonDumps (PyVal.dict
          [("fileName", PyVal.str "x.png"), ("fileSize", PyVal.int 55),
           ("fileFormat", PyVal.str "image/png"), ("bucketName", PyVal.str "b2"),
           ("timestamp", PyVal.str SENTINEL)])] :=
  c7_roundtrip_keys pubOk nestedEvent none "id123" _ rfl

/-- C8: a publish call that raises is caught at the invocation boundary,
logged, and swallowed into the `caughtError` outcome; the embedded handler is
a total function, so no exception ever propagates to the trigger. -/
theorem c8_error_swallowed (pubf : String → Except String String)
    (ev : List (String × PyVal)) (ctx : Option EventContext)
    (fn fs ff bn : Option PyVal) (e : String)
    (hE : extractFields ev = (fn, fs, ff, bn))
    (ht : requiredTruthy fn fs ff bn = true)
    (hp : pubf (pyJsonDumps (PyVal.dict
            (buildMessageData fn fs ff bn (resolveTimestamp ctx)))) = Except.error e) :
    process_gcs_file (some pubf) ev ctx = Outcome.caughtError e
    ∧ LogEvent.unhandledError e ∈ (process_gcs_fileT (some pubf) ev ctx).logs := by
  rcases hEL : extractFieldsL ev with ⟨⟨fn', fs', ff', bn'⟩, lgs⟩
  have hq : fn' = fn ∧ fs' = fs ∧ ff' = ff ∧ bn' = bn := by
    have := hE
    simp only [extractFields, hEL] at this
    exact ⟨congrArg (fun q => q.1) this, congrArg (fun q => q.2.1) this,
           congrArg (fun q => q.2.2.1) this, congrArg (fun q => q.2.2.2) this⟩
  rcases hq with ⟨rfl, rfl, rfl, rfl⟩
  simp [process_gcs_file, process_gcs_fileT, hEL, ht, hp]

/-- Witness for C8: a concrete raising publisher on the flat example event. -/
theorem c8_witness :
    process_gcs_file pubFail flatEvent none = Outcome.caughtError "boom"
    ∧ LogEvent.unhandledError "boom" ∈ (process_gcs_fileT pubFail flatEvent none).logs :=
  c8_error_swallowed (fun _ => Except.error "boom") flatEvent none _ _ _ _ "boom" rfl rfl rfl

/-- C9: every run is a single pass making at most one publish call, and it
terminates in one of the enumerated outcomes — published, or one of the skip
and absorbed-error outcomes; there is no retry loop. -/
theorem c9_single_pass (pub : PublisherBinding) (ev : List (String × PyVal))
    (ctx : Option EventContext) :
    (process_gcs_fileT pub ev ctx).publishCalls.length ≤ 1
    ∧ ((∃ mid md, (process_gcs_fileT pub ev ctx).outcome = Outcome.published mid md)
        ∨ (process_gcs_fileT pub ev ctx).outcome = Outcome.skippedMissingFields
        ∨ (process_gcs_fileT pub ev ctx).outcome = Outcome.skippedNoPublisher
        ∨ (∃ e, (process_gcs_fileT pub ev ctx).outcome = Outcome.caughtError e)) := by
  rcases hE : extractFieldsL ev with ⟨⟨fn, fs, ff, bn⟩, lgs⟩
  simp only [process_gcs_fileT, hE]
  split
  · cases pub with
    | none => simp
    | some p =>
        cases hp : p (pyJsonDumps (PyVal.dict
            (buildMessageData fn fs ff bn (resolveTimestamp ctx)))) with
        | error e => simp [hp]
        | ok mid => simp [hp]
  · simp

/-- C10: a falsy value at a present top-level key triggers the nested
fallback; if the nested set is still not all truthy the run aborts without
publishing, and if it is all truthy any published message carries the nested
values rather than the top-level ones. -/
theorem c10_falsy_field_fallback (ev d : List (String × PyVal))
    (_hname : (pyGet ev "name").isSome = true)
    (_hsize : (pyGet ev "size").isSome = true)
    (_hct : (pyGet ev "contentType").isSome = true)
    (_hbk : (pyGet ev "bucket").isSome = true)
    (hfalsy : requiredTruthy (pyGet ev "name") (pyGet ev "size")
                (pyGet ev "contentType") (pyGet ev "bucket") = false)
    (hd : pyGet ev "data" = some (PyVal.dict d)) :
    (d ≠ [] → extractFields ev =
        (pyGet d "name", pyGet d "size", pyGet d "contentType", pyGet d "bucket"))
    ∧ (requiredTruthy (pyGet d "name") (pyGet d "size") (pyGet d "contentType")
          (pyGet d "bucket") = false →
        ∀ (pub : PublisherBinding) (ctx : Option EventContext),
          process_gcs_file pub ev ctx = Outcome.skippedMissingFields)
    ∧ (requiredTruthy (pyGet d "name") (pyGet d "size") (pyGet d "contentType")
          (pyGet d "bucket") = true →
        ∀ (pub : PublisherBinding) (ctx : Option EventContext)
          (mid : String) (md : List (String × PyVal)),
          process_gcs_file pub ev ctx = Outcome.published mid md →
          List.lookup "fileName" md = pyGet d "name"
          ∧ List.lookup "fileSize" md = pyGet d "size"
          ∧ List.lookup "fileFormat" md = pyGet d "contentType"
          ∧ List.lookup "bucketName" md = pyGet d "bucket") := by
  refine ⟨?_, ?_, ?_⟩
  · intro hne
    simp [extractFields, extractFieldsL_nested ev d hfalsy hd hne]
  · intro hm2 pub ctx
    cases d with
    | nil =>
        have hE : extractFields ev = (pyGet ev "name", pyGet ev "size",
            pyGet ev "contentType", pyGet ev "bucket") := by
          simp [extractFields, extractFieldsL, hfalsy, hd]
        exact (missing_skip pub ev ctx _ _ _ _ hE hfalsy).1
    | cons p l =>
        have hE : extractFields ev = (pyGet (p :: l) "name", pyGet (p :: l) "size",
            pyGet (p :: l) "contentType", pyGet (p :: l) "bucket") := by
          simp [extractFields, extractFieldsL_nested ev (p :: l) hfalsy hd (by simp)]
        exact (missing_skip pub ev ctx _ _ _ _ hE hm2).1
  · intro hok pub ctx mid md h
    have hv := published_nested_values ev d pub ctx mid md hfalsy hd hok h
    exact ⟨hv.1, hv.2.1, hv.2.2.1, hv.2.2.2.1⟩

/-- Witness for C10: a zero `size` at a present top-level key with a complete
truthy nested mapping publishes the nested values. -/
theorem c10_witness :
    process_gcs_file pubOk zeroSizeEvent none = Outcome.published "id123" shadowMessage
    ∧ List.lookup "fileName" shadowMessage = pyGet shadowFields "name"
    ∧ List.lookup "fileSize" shadowMessage = pyGet shadowFields "size"
    ∧ List.lookup "fileFormat" shadowMessage = pyGet shadowFields "contentType"
    ∧ List.lookup "bucketName" shadowMessage = pyGet shadowFields "bucket" :=
  ⟨rfl, (c10_falsy_field_fallback zeroSizeEvent shadowFields rfl rfl rfl rfl rfl rfl).2.2
    rfl pubOk none "id123" shadowMessage rfl⟩
